import Mathlib

/-!
Shallow embedding of the validation subsystem of `databus-py`
(`src/databus/gtfs/validator.py`, `src/databus/validation/models.py`,
`src/databus/validation/rules.py`).

Modelling conventions:
* pandas cell values become `Value` (exact rationals stand in for the
  numeric dtypes; `null` stands in for NaN / missing cells);
* a DataFrame becomes `Table` (explicit column list plus rows as
  association lists), so "table absent", "present but empty" and
  "column missing" are all distinguishable, as the source's defensive
  probing requires;
* Python functions that may raise become `Except String _`, the string
  being the exception text (`str(e)`); exact Python `repr` formatting of
  interpolated lists inside messages is not reproduced character by
  character where no claim depends on it — such spots are commented;
* `pd.Timestamp.now()` is an environment input and is threaded through as
  an explicit `now : Int` (day number) parameter of the service-dates rule;
* Python float arithmetic on the score is modelled with exact rationals:
  the score formula only involves small integer numerators and
  denominators.
-/

namespace Databus

/-- A pandas cell value: string, numeric (exact rational), or NaN/missing. -/
inductive Value where
  | str (s : String)
  | num (q : Rat)
  | null
  deriving DecidableEq

/-- Python `==` on cells: NaN compares unequal to everything, including
itself; values of different types compare unequal (`"1" == 1` is `False`). -/
def Value.pyEq : Value → Value → Bool
  | .str a, .str b => a == b
  | .num a, .num b => a == b
  | _, _ => false

def Value.isNull : Value → Bool
  | .null => true
  | _ => false

def Value.isNum : Value → Bool
  | .num _ => true
  | _ => false

def Value.isStr : Value → Bool
  | .str _ => true
  | _ => false

/-- `str.strip()`: drop leading and trailing whitespace (structural
recursion over the character list, so that concrete runs reduce in the
kernel). -/
def strTrim (s : String) : String :=
  ⟨(((s.data.dropWhile (·.isWhitespace)).reverse.dropWhile
      (·.isWhitespace)).reverse)⟩

/-- `str(x)` as used by `.astype(str)`: NaN prints as `"nan"`.  The exact
digit rendering of numbers is irrelevant to every use (blankness checks and
message text), so `toString` on the rational stands in for Python float
formatting. -/
def Value.pyStr : Value → String
  | .str s => s
  | .num q => toString q
  | .null => "nan"

/-- One DataFrame row: association list from column name to cell value.
A column present in the table but absent from the row reads as `null`. -/
def Row := List (String × Value)
  deriving DecidableEq

def Row.cell (r : Row) (c : String) : Value :=
  (List.lookup c r).getD .null

/-- A loaded GTFS table (one DataFrame of the `gtfs_kit` feed object). -/
structure Table where
  columns : List String
  rows : List Row
  deriving DecidableEq

/-- `table.empty` in pandas. -/
def Table.isEmpty (t : Table) : Bool := t.rows.isEmpty

/-- `table[c]` on a DataFrame: raises `KeyError` when the column is absent. -/
def Table.colE (t : Table) (c : String) : Except String (List Value) :=
  if c ∈ t.columns then .ok (t.rows.map (·.cell c)) else .error ("KeyError " ++ c)

/-- The set of loaded tables exposed by the feed object.  `gtfs_kit` always
has the attribute; an absent file is `None`, modelled as `none`. -/
structure Feed where
  agency : Option Table := none
  routes : Option Table := none
  stops : Option Table := none
  trips : Option Table := none
  stop_times : Option Table := none
  calendar : Option Table := none
  shapes : Option Table := none

/-- `getattr(feed, name, None)` for the table names the rules consult. -/
def Feed.table (f : Feed) : String → Option Table
  | "agency" => f.agency
  | "routes" => f.routes
  | "stops" => f.stops
  | "trips" => f.trips
  | "stop_times" => f.stop_times
  | "calendar" => f.calendar
  | "shapes" => f.shapes
  | _ => none

/-- `GTFSProcessor`: only the attributes the validator reads
(`feed`, `_is_loaded`, `feed_path`). -/
structure Processor where
  feed : Feed
  is_loaded : Bool
  feed_path : Option String := none

/-- A structured value inside an issue's `details` mapping. -/
inductive DetailVal where
  | nat (n : Nat)
  | str (s : String)
  | val (v : Value)
  | vals (l : List Value)
  | strs (l : List String)
  deriving DecidableEq

/-- An issue's `details` dict. -/
def Details := List (String × DetailVal)
  deriving DecidableEq

/-- An issue as returned by a rule's check function: a dict that may or may
not carry `message` / `details` keys (the engine supplies defaults via
`dict.get`). -/
structure RawIssue where
  message : Option String := none
  details : Option Details := none
  deriving DecidableEq

instance {ε α : Type} [DecidableEq ε] [DecidableEq α] :
    DecidableEq (Except ε α) := fun x y =>
  match x, y with
  | .ok a, .ok b =>
    if h : a = b then isTrue (by rw [h])
    else isFalse (fun hh => by cases hh; exact h rfl)
  | .error a, .error b =>
    if h : a = b then isTrue (by rw [h])
    else isFalse (fun hh => by cases hh; exact h rfl)
  | .ok _, .error _ => isFalse (fun hh => by cases hh)
  | .error _, .ok _ => isFalse (fun hh => by cases hh)

/-- An issue as stored on the report, enriched by the engine with the rule
name and the rule's severity (`validator.py` lines 134-139). -/
structure Issue where
  rule : String
  message : String
  details : Details
  severity : String
  deriving DecidableEq

/-- `ValidationRule` (`validation/models.py`).  `validate_func` may raise,
hence the `Except`.  `__post_init__` restricts `severity` to
error/warning/info; theorems that depend on it take it as a hypothesis. -/
structure ValidationRule where
  name : String
  description : String
  validate_func : Feed → Except String (List RawIssue)
  severity : String := "warning"
  category : Option String := none

/-- `ValidationReport` (`validation/models.py`).  `validated_at` is a
wall-clock timestamp irrelevant to every claim and is omitted. -/
structure ValidationReport where
  status : String
  score : Rat
  errors : List Issue := []
  warnings : List Issue := []
  notices : List Issue := []
  feed_path : Option String := none
  deriving DecidableEq

/-- `ValidationReport.total_issues`. -/
def ValidationReport.total_issues (r : ValidationReport) : Nat :=
  r.errors.length + r.warnings.length + r.notices.length

/-- `ValidationReport.has_errors`. -/
def ValidationReport.has_errors (r : ValidationReport) : Bool :=
  r.errors.length > 0

/-- `ValidationReport.has_warnings`. -/
def ValidationReport.has_warnings (r : ValidationReport) : Bool :=
  r.warnings.length > 0

/-- `ValidationReport.get_issues_by_severity` (`models.py` lines 84-100):
returns (a copy of) the matching list, or `[]` for anything unrecognized. -/
def ValidationReport.get_issues_by_severity (r : ValidationReport)
    (severity : String) : List Issue :=
  if severity == "error" then r.errors
  else if severity == "warning" then r.warnings
  else if severity == "info" then r.notices
  else []

/-- `ValidationReport.get_issues_by_rule` (`models.py` lines 70-82). -/
def ValidationReport.get_issues_by_rule (r : ValidationReport)
    (rule_name : String) : List Issue :=
  (r.errors ++ r.warnings ++ r.notices).filter (fun i => i.rule == rule_name)

/-! ### Helper semantics for the pandas operations the rules use -/

/-- Value of a list of decimal digit characters. -/
def digitsVal (cs : List Char) : Nat :=
  cs.foldl (fun n c => n * 10 + (c.toNat - 48)) 0

/-- `pd.to_numeric` on one cell text: optional sign, then digits with an
optional fractional part (scientific notation and surrounding whitespace,
which pandas also accepts, do not occur in any input considered here). -/
def parseDecimal (s : String) : Option Rat :=
  let cs := s.data
  let signed : Bool × List Char :=
    match cs with
    | '-' :: rest => (true, rest)
    | '+' :: rest => (false, rest)
    | _ => (false, cs)
  let intPart := signed.2.takeWhile (·.isDigit)
  let rest := signed.2.dropWhile (·.isDigit)
  let q? : Option Rat :=
    match rest with
    | [] => if intPart.isEmpty then none else some (digitsVal intPart)
    | '.' :: frac =>
      if frac.all (·.isDigit) && (!intPart.isEmpty || !frac.isEmpty) then
        some ((digitsVal intPart : Rat) +
          (digitsVal frac : Rat) / ((10 : Rat) ^ frac.length))
      else none
    | _ => none
  q?.map (fun q => if signed.1 then -q else q)

/-- Can this cell survive `pd.to_numeric(..., errors="raise")`?
NaN passes through `to_numeric` untouched. -/
def Value.numericCoercible : Value → Bool
  | .num _ => true
  | .null => true
  | .str s => (parseDecimal s).isSome

/-- One cell of `series < -bound` / `series > bound` on a numeric-or-object
column: NaN compares `False` both ways; comparing a string with a number
raises `TypeError`. -/
def Value.outOfRange (v : Value) (bound : Rat) : Except String Bool :=
  match v with
  | .num r => .ok (decide (r < -bound) || decide (r > bound))
  | .null => .ok false
  | .str _ => .error "TypeError"

/-- `Series.unique()`: distinct values in order of first occurrence
(pandas also collapses NaNs to one entry, as structural equality does). -/
def uniqueFirstAux {α : Type} [BEq α] (seen : List α) : List α → List α
  | [] => []
  | v :: vs =>
    if seen.contains v then uniqueFirstAux seen vs
    else v :: uniqueFirstAux (v :: seen) vs

def uniqueFirst {α : Type} [BEq α] (l : List α) : List α :=
  uniqueFirstAux [] l

/-- Stable insertion into an ascending list. -/
def insertAsc {α : Type} (le : α → α → Bool) (x : α) : List α → List α
  | [] => [x]
  | y :: ys => if le x y then x :: y :: ys else y :: insertAsc le x ys

/-- Ascending sort (structural recursion so that concrete runs reduce). -/
def sortAsc {α : Type} (le : α → α → Bool) (l : List α) : List α :=
  l.foldr (insertAsc le) []

def Value.toNum? : Value → Option Rat
  | .num q => some q
  | _ => none

def Value.toStr? : Value → Option String
  | .str s => some s
  | _ => none

/-- `Series.sort_values()` on an object column: numbers sort numerically and
strings lexicographically, NaNs go last; a column mixing strings and numbers
raises `TypeError` when compared. -/
def sortValues (vs : List Value) : Except String (List Value) :=
  let nonNull := vs.filter (fun v => !v.isNull)
  let nulls := vs.length - nonNull.length
  if nonNull.all Value.isNum then
    .ok ((sortAsc (fun a b => decide (a ≤ b)) (nonNull.filterMap Value.toNum?)).map Value.num
      ++ List.replicate nulls Value.null)
  else if nonNull.all Value.isStr then
    .ok ((sortAsc (fun a b => decide (a ≤ b)) (nonNull.filterMap Value.toStr?)).map Value.str
      ++ List.replicate nulls Value.null)
  else .error "TypeError"

/-- `list(range(1, n + 1))` as cell values, the dense run `1..n`. -/
def denseRun (n : Nat) : List Value :=
  (List.range' 1 n).map (fun k => Value.num k)

/-- Leap year (Gregorian). -/
def isLeap (y : Nat) : Bool :=
  y % 4 == 0 && (y % 100 != 0 || y % 400 == 0)

def daysInMonth (y m : Nat) : Nat :=
  if m == 2 then (if isLeap y then 29 else 28)
  else if m == 4 || m == 6 || m == 9 || m == 11 then 30
  else 31

/-- Day number of a Gregorian date (days since 1970-01-01, the standard
civil-from-days construction; all intermediate divisions act on
non-negative operands, so truncating division is exact). -/
def daysFromCivil (y m d : Int) : Int :=
  let y' := if m ≤ 2 then y - 1 else y
  let era := (if y' ≥ 0 then y' else y' - 399) / 400
  let yoe := y' - era * 400
  let mp := (m + 9) % 12
  let doy := (153 * mp + 2) / 5 + d - 1
  let doe := yoe * 365 + yoe / 4 - yoe / 100 + doy
  era * 146097 + doe - 719468

/-- `pd.to_datetime(x, format="%Y%m%d")` on one cell: an eight-digit string
denoting a valid date parses to its day number, anything else raises.
(pandas would also accept the integer form of the same eight digits;
no input considered here has a numeric date column.) -/
def parseDate (v : Value) : Except String Int :=
  match v with
  | .str s =>
    let cs := s.data
    if cs.length == 8 && cs.all (·.isDigit) then
      let y := digitsVal (cs.take 4)
      let m := digitsVal ((cs.drop 4).take 2)
      let d := digitsVal (cs.drop 6)
      if 1 ≤ m && m ≤ 12 && 1 ≤ d && d ≤ daysInMonth y m then
        .ok (daysFromCivil y m d)
      else .error "ValueError"
    else .error "ValueError"
  | _ => .error "TypeError"

/-! ### The validator's built-in rule checks
(`GTFSValidator._validate_*`, `gtfs/validator.py` lines 191-395; these
bound methods read nothing from `self`, so they embed as plain functions
of the feed — `_validate_service_dates` additionally takes the current
day number, the embedding of `pd.Timestamp.now()`). -/

namespace GTFSValidator

/-- `_validate_required_files` (lines 191-204). -/
def validate_required_files (f : Feed) : Except String (List RawIssue) :=
  .ok ((["agency", "routes", "stops", "trips", "stop_times"]).filterMap
    (fun name =>
      let missing := match f.table name with
        | none => true
        | some t => t.isEmpty
      if missing then
        some ⟨some ("Required file " ++ name ++ ".txt is missing or empty"),
          some [("file", .str name)]⟩
      else none))

/-- `_validate_required_fields` (lines 206-228).  (The single quotes Python
prints around the field name are left out of the message text.) -/
def validate_required_fields (f : Feed) : Except String (List RawIssue) :=
  .ok (([("agency", ["agency_name", "agency_url", "agency_timezone"]),
        ("routes", ["route_id", "route_type"]),
        ("stops", ["stop_id", "stop_name", "stop_lat", "stop_lon"]),
        ("trips", ["route_id", "service_id", "trip_id"]),
        ("stop_times", ["trip_id", "stop_id", "stop_sequence"])]
      : List (String × List String)).map
    (fun tf =>
      match f.table tf.1 with
      | some t =>
        if !t.isEmpty then
          tf.2.filterMap (fun fd =>
            if fd ∈ t.columns then none
            else some ⟨some ("Required field " ++ fd ++ " missing in "
                ++ tf.1 ++ ".txt"),
              some [("file", .str tf.1), ("field", .str fd)]⟩)
        else []
      | none => [])).flatten

/-- `_validate_data_types` (lines 230-259). -/
def validate_data_types (f : Feed) : Except String (List RawIssue) :=
  let stopsIssues :=
    match f.stops with
    | some t =>
      if "stop_lat" ∈ t.columns ∧ "stop_lon" ∈ t.columns then
        if (t.rows.map (·.cell "stop_lat")
            ++ t.rows.map (·.cell "stop_lon")).all Value.numericCoercible then []
        else [⟨some "Stop coordinates must be numeric",
          some [("file", .str "stops"),
                ("fields", .strs ["stop_lat", "stop_lon"])]⟩]
      else []
    | none => []
  let routesIssues :=
    match f.routes with
    | some t =>
      if "route_type" ∈ t.columns then
        if (t.rows.map (·.cell "route_type")).all Value.numericCoercible then []
        else [⟨some "Route type must be numeric",
          some [("file", .str "routes"), ("field", .str "route_type")]⟩]
      else []
    | none => []
  .ok (stopsIssues ++ routesIssues)

/-- `_validate_foreign_keys` (lines 261-293).  Python iterates the set
difference in unspecified hash order; the embedding fixes first-occurrence
order.  The up-to-five offending ids Python interpolates into the message
text are left out of the message (they are carried in `details`). -/
def validate_foreign_keys (f : Feed) : Except String (List RawIssue) := do
  let tripsPart ← (match f.routes, f.trips with
    | some rt, some tp => do
      let routeIds ← rt.colE "route_id"
      let tripRouteIds ← tp.colE "route_id"
      let missing := (uniqueFirst tripRouteIds).filter
        (fun v => !(routeIds.contains v))
      if missing.isEmpty then pure ([] : List RawIssue)
      else pure [⟨some "Trips reference non-existent routes",
        some [("missing_route_ids", .vals (missing.take 10))]⟩]
    | _, _ => pure [])
  let stopsPart ← (match f.stops, f.stop_times with
    | some st, some stt => do
      let stopIds ← st.colE "stop_id"
      let sttStopIds ← stt.colE "stop_id"
      let missing := (uniqueFirst sttStopIds).filter
        (fun v => !(stopIds.contains v))
      if missing.isEmpty then pure ([] : List RawIssue)
      else pure [⟨some "Stop times reference non-existent stops",
        some [("missing_stop_ids", .vals (missing.take 10))]⟩]
    | _, _ => pure [])
  pure (tripsPart ++ stopsPart)

/-- `_validate_coordinates` (lines 295-318); identical text also forms
`StandardRules.coordinate_validity_rule` (`rules.py` lines 173-206). -/
def validate_coordinates (f : Feed) : Except String (List RawIssue) :=
  match f.stops with
  | some t =>
    if "stop_lat" ∈ t.columns ∧ "stop_lon" ∈ t.columns then do
      let latFlags ← t.rows.mapM (fun r => (r.cell "stop_lat").outOfRange 90)
      let lonFlags ← t.rows.mapM (fun r => (r.cell "stop_lon").outOfRange 180)
      let nLat := latFlags.count true
      let nLon := lonFlags.count true
      pure ((if nLat > 0 then
          [⟨some ("Invalid latitudes found: " ++ toString nLat ++ " stops"),
            some [("count", .nat nLat)]⟩] else [])
        ++ (if nLon > 0 then
          [⟨some ("Invalid longitudes found: " ++ toString nLon ++ " stops"),
            some [("count", .nat nLon)]⟩] else []))
    else pure []
  | none => pure []

/-- `_validate_service_dates` (lines 320-355); `now` is the current day
number (`pd.Timestamp.now()`). -/
def validate_service_dates (now : Int) (f : Feed) :
    Except String (List RawIssue) :=
  match f.calendar with
  | some t =>
    if !t.isEmpty then
      match (do
        let sVals ← t.colE "start_date"
        let eVals ← t.colE "end_date"
        let starts ← sVals.mapM parseDate
        let ends ← eVals.mapM parseDate
        pure (starts, ends) : Except String (List Int × List Int)) with
      | .error e =>
        .ok [⟨some ("Error validating service dates: " ++ e), some []⟩]
      | .ok se =>
        let nPast := se.2.countP (fun ed => ed < now - 30)
        let nLong := (List.zip se.1 se.2).countP (fun p => p.2 - p.1 > 730)
        .ok ((if nPast > 0 then
            [⟨some ("Service periods ending more than 30 days ago: "
                ++ toString nPast), some [("count", .nat nPast)]⟩] else [])
          ++ (if nLong > 0 then
            [⟨some ("Service periods longer than 2 years: " ++ toString nLong),
              some [("count", .nat nLong)]⟩] else []))
    else .ok []
  | none => .ok []

/-- `_validate_stop_times_sequence` (lines 357-374): only the duplicate
`(trip_id, stop_sequence)` group count — the validator's own copy has no
per-trip sequence scan.  `groupby` raises `KeyError` on a missing key
column and drops rows whose key holds NaN. -/
def validate_stop_times_sequence (f : Feed) : Except String (List RawIssue) :=
  match f.stop_times with
  | some t => do
    let trips ← t.colE "trip_id"
    let seqs ← t.colE "stop_sequence"
    let pairs := (List.zip trips seqs).filter
      (fun p => !p.1.isNull && !p.2.isNull)
    let nDup := (uniqueFirst pairs).countP (fun p => pairs.count p > 1)
    pure (if nDup > 0 then
      [⟨some ("Duplicate stop sequences found in " ++ toString nDup
          ++ " cases"), some [("count", .nat nDup)]⟩]
      else [])
  | none => pure []

/-- `_validate_route_names` (lines 376-395).  When either name column is
absent, `routes.get(col, "")` yields the plain string `""` and the chained
`.astype(str)` raises `AttributeError`. -/
def validate_route_names (f : Feed) : Except String (List RawIssue) :=
  match f.routes with
  | some t =>
    if "route_short_name" ∈ t.columns ∧ "route_long_name" ∈ t.columns then
      let noName := t.rows.filter (fun r =>
        (strTrim (r.cell "route_short_name").pyStr == "")
          && (strTrim (r.cell "route_long_name").pyStr == ""))
      if noName.length > 0 then do
        let ids ← (Table.mk t.columns noName).colE "route_id"
        pure [⟨some ("Routes without names: " ++ toString noName.length),
          some [("count", .nat noName.length),
                ("route_ids", .vals (ids.take 5))]⟩]
      else pure []
    else .error "AttributeError"
  | none => pure []

end GTFSValidator

/-! ### Standard rules from `validation/rules.py` cited by the claims -/

namespace StandardRules

/-- `StandardRules.coordinate_validity_rule` (`rules.py` lines 173-206);
its check body is textually identical to `_validate_coordinates`, so the
same embedded function is used. -/
def coordinate_validity_rule : ValidationRule :=
  ⟨"coordinate_validity", "Check coordinate validity",
    GTFSValidator.validate_coordinates, "error", some "geographic"⟩

/-- The check of `StandardRules.duplicate_ids_rule` (`rules.py` lines
329-365).  `Series.duplicated()` marks every occurrence after the first,
so the count is `len(column) - number of distinct values`. -/
def duplicate_ids_check (f : Feed) : Except String (List RawIssue) :=
  let routesPart :=
    match f.routes with
    | some t =>
      if "route_id" ∈ t.columns then
        let vals := t.rows.map (·.cell "route_id")
        let nDup := vals.length - (uniqueFirst vals).length
        if nDup > 0 then
          [⟨some ("Duplicate route IDs found: " ++ toString nDup),
            some [("count", .nat nDup)]⟩]
        else []
      else []
    | none => []
  let stopsPart :=
    match f.stops with
    | some t =>
      if "stop_id" ∈ t.columns then
        let vals := t.rows.map (·.cell "stop_id")
        let nDup := vals.length - (uniqueFirst vals).length
        if nDup > 0 then
          [⟨some ("Duplicate stop IDs found: " ++ toString nDup),
            some [("count", .nat nDup)]⟩]
        else []
      else []
    | none => []
  .ok (routesPart ++ stopsPart)

def duplicate_ids_rule : ValidationRule :=
  ⟨"duplicate_ids", "Check for duplicate IDs",
    duplicate_ids_check, "error", some "uniqueness"⟩

/-- `stop_times[stop_times["trip_id"] == tid]["stop_sequence"]`. -/
def tripSeqVals (t : Table) (tid : Value) : List Value :=
  (t.rows.filter (fun r => (r.cell "trip_id").pyEq tid)).map
    (·.cell "stop_sequence")

/-- The `for trip_id in ...unique()[:100]` loop of
`stop_times_sequence_rule`, with its `break` after the first violation
(an exception raised while sorting propagates out of the loop). -/
def seqScan (t : Table) : List Value → Except String (List RawIssue)
  | [] => .ok []
  | tid :: rest =>
    match sortValues (tripSeqVals t tid) with
    | .error e => .error e
    | .ok sorted =>
      if sorted == denseRun sorted.length then seqScan t rest
      else .ok [⟨some ("Non-sequential stop sequences in trip "
          ++ tid.pyStr), some [("trip_id", .val tid)]⟩]

/-- The check of `StandardRules.stop_times_sequence_rule` (`rules.py` lines
255-293): the duplicate-pair count (as in the validator's copy), then the
sampled per-trip dense-run scan over the first 100 distinct trip ids. -/
def stop_times_sequence_check (f : Feed) : Except String (List RawIssue) :=
  match f.stop_times with
  | some t =>
    match t.colE "trip_id" with
    | .error e => .error e
    | .ok trips =>
      match t.colE "stop_sequence" with
      | .error e => .error e
      | .ok seqs =>
        let pairs := (List.zip trips seqs).filter
          (fun p => !p.1.isNull && !p.2.isNull)
        let nDup := (uniqueFirst pairs).countP (fun p => pairs.count p > 1)
        let dupIssues : List RawIssue :=
          if nDup > 0 then
            [⟨some ("Duplicate stop sequences found in " ++ toString nDup
                ++ " cases"), some [("count", .nat nDup)]⟩]
          else []
        match seqScan t ((uniqueFirst trips).take 100) with
        | .error e => .error e
        | .ok scanIssues => .ok (dupIssues ++ scanIssues)
  | none => .ok []

def stop_times_sequence_rule : ValidationRule :=
  ⟨"stop_times_sequence", "Check stop time sequences",
    stop_times_sequence_check, "warning", some "sequence"⟩

end StandardRules

/-! ### The validation engine (`GTFSValidator`, `gtfs/validator.py`) -/

/-- The engine's state: `self.processor` and `self._validation_rules`. -/
structure GTFSValidator where
  processor : Option Processor
  validation_rules : List ValidationRule

namespace GTFSValidator

/-- `_setup_default_rules` (lines 44-96): the eight built-in rules, in
order.  `now` is the day number `_validate_service_dates` will read from
the clock. -/
def setup_default_rules (now : Int) : List ValidationRule :=
  [⟨"required_files", "Check for required GTFS files",
      validate_required_files, "error", none⟩,
   ⟨"required_fields", "Check for required fields in each file",
      validate_required_fields, "error", none⟩,
   ⟨"data_types", "Check data type compliance",
      validate_data_types, "error", none⟩,
   ⟨"foreign_keys", "Check foreign key relationships",
      validate_foreign_keys, "error", none⟩,
   ⟨"coordinate_validity", "Check coordinate validity",
      validate_coordinates, "error", none⟩,
   ⟨"service_dates", "Check service date ranges",
      validate_service_dates now, "warning", none⟩,
   ⟨"stop_times_sequence", "Check stop time sequences",
      validate_stop_times_sequence, "warning", none⟩,
   ⟨"route_names", "Check route naming consistency",
      validate_route_names, "info", none⟩]

/-- `GTFSValidator.__init__` (lines 38-42). -/
def init (now : Int) (processor : Option Processor) : GTFSValidator :=
  ⟨processor, setup_default_rules now⟩

/-- `add_custom_rule` (lines 98-104): appends to this instance's rule
list. -/
def add_custom_rule (v : GTFSValidator) (rule : ValidationRule) :
    GTFSValidator :=
  { v with validation_rules := v.validation_rules ++ [rule] }

/-- The three accumulating lists of the `validate` loop. -/
structure IssueLists where
  errors : List Issue
  warnings : List Issue
  notices : List Issue
  deriving DecidableEq

/-- Lines 133-139: the issue dict built from one raw issue —
`issue.get("message", rule.description)`, `issue.get("details", {})`,
severity taken from the rule. -/
def enrich (r : ValidationRule) (i : RawIssue) : Issue :=
  ⟨r.name, i.message.getD r.description, i.details.getD [], r.severity⟩

/-- Lines 141-146: route one enriched issue to the list selected by the
rule's severity (anything that is neither error nor warning lands in
notices). -/
def routeIssue (r : ValidationRule) (acc : IssueLists) (d : Issue) :
    IssueLists :=
  if r.severity == "error" then { acc with errors := acc.errors ++ [d] }
  else if r.severity == "warning" then
    { acc with warnings := acc.warnings ++ [d] }
  else { acc with notices := acc.notices ++ [d] }

/-- Lines 128-155: one iteration of the rule loop — run the check, enrich
and route its issues; on an exception append the synthetic error issue. -/
def runRule (feed : Feed) (acc : IssueLists) (r : ValidationRule) :
    IssueLists :=
  match r.validate_func feed with
  | .ok issues => issues.foldl (fun a i => routeIssue r a (enrich r i)) acc
  | .error e =>
    { acc with errors := acc.errors
        ++ [⟨r.name, "Validation rule failed: " ++ e, [], "error"⟩] }

/-- The whole rule loop, starting from the three empty lists. -/
def runRules (feed : Feed) (rules : List ValidationRule) : IssueLists :=
  rules.foldl (runRule feed) ⟨[], [], []⟩

/-- Lines 157-169: the score computation. -/
def computeScore (nErrors nWarnings nNotices nRules : Nat) : Rat :=
  let error_weight : Rat := 10
  let warning_weight : Rat := 3
  let notice_weight : Rat := 1
  let total_weight : Rat :=
    nErrors * error_weight + nWarnings * warning_weight
      + nNotices * notice_weight
  let max_possible_weight : Rat := nRules * error_weight
  if max_possible_weight > 0 then
    max 0 (100 - total_weight / max_possible_weight * 100)
  else 100

/-- Lines 171-177: the status derivation. -/
def statusOf (errors warnings : List Issue) : String :=
  if !errors.isEmpty then "invalid"
  else if !warnings.isEmpty then "valid_with_warnings"
  else "valid"

/-- `validate` (lines 106-189).  The `Except` error is the
`GTFSValidationError` message.  A non-`none` argument replaces the stored
processor exactly as `if processor: self.processor = processor` does; the
`str(feed_path) if feed_path else None` truthiness test makes an empty
path string come out as `None`. -/
def validate (v : GTFSValidator) (processor : Option Processor) :
    Except String ValidationReport :=
  let v := match processor with
    | some p => { v with processor := some p }
    | none => v
  match v.processor with
  | none => .error "No loaded GTFS processor provided"
  | some p =>
    if !p.is_loaded then .error "No loaded GTFS processor provided"
    else
      let ls := runRules p.feed v.validation_rules
      let score := computeScore ls.errors.length ls.warnings.length
        ls.notices.length v.validation_rules.length
      .ok ⟨statusOf ls.errors ls.warnings, score,
        ls.errors, ls.warnings, ls.notices,
        match p.feed_path with
        | some s => if s == "" then none else some s
        | none => none⟩

end GTFSValidator

/-! ### Spec-side definitions (written from the specification's words, for
comparison with the code-derived definitions above) -/

/-- The score formula as the spec states it:
`max(0, 100 - 100*total_weight/max_possible_weight)` with
`total_weight = 10*E + 3*W + 1*N` and `max_possible_weight = 10*R`;
`100.0` when there are zero active rules. -/
def specScore (nErrors nWarnings nNotices nRules : Nat) : Rat :=
  if 0 < nRules then
    max 0 (100 - 100 * ((10 * nErrors + 3 * nWarnings + nNotices : Nat) : Rat)
      / ((10 * nRules : Nat) : Rat))
  else 100

/-- Number of `(trip_id, stop_sequence)` groups of size `> 1`
(`groupby(...).size()` filtered to `> 1`). -/
def dupGroupCount (pairs : List (Value × Value)) : Nat :=
  (uniqueFirst pairs).countP (fun p => pairs.count p > 1)

/-- Does this trip violate the dense-run condition: its sorted
`stop_sequence` values differ from `1..N`?  (An unsortable value list
would raise instead; that case is excluded by the hypotheses under which
this predicate is used.) -/
def seqViolB (t : Table) (tid : Value) : Bool :=
  match sortValues (StandardRules.tripSeqVals t tid) with
  | .ok s => !(s == denseRun s.length)
  | .error _ => true

/-! ### Concrete fixtures -/

/-- A one-route, one-stop, one-trip feed that passes every default rule:
all required files and fields, numeric coordinates in range, intact
foreign keys, unique ids, a dense stop sequence, named routes, and no
calendar. -/
def cleanFeed : Feed :=
  { agency := some ⟨["agency_name", "agency_url", "agency_timezone"],
      [[("agency_name", .str "Metro"), ("agency_url", .str "example.com"),
        ("agency_timezone", .str "America.Costa_Rica")]]⟩,
    routes := some ⟨["route_id", "route_type", "route_short_name",
        "route_long_name"],
      [[("route_id", .str "R1"), ("route_type", .num 3),
        ("route_short_name", .str "10"),
        ("route_long_name", .str "Main Line")]]⟩,
    stops := some ⟨["stop_id", "stop_name", "stop_lat", "stop_lon"],
      [[("stop_id", .str "S1"), ("stop_name", .str "Stop 1"),
        ("stop_lat", .num 10), ("stop_lon", .num 20)]]⟩,
    trips := some ⟨["route_id", "service_id", "trip_id"],
      [[("route_id", .str "R1"), ("service_id", .str "SV1"),
        ("trip_id", .str "T1")]]⟩,
    stop_times := some ⟨["trip_id", "stop_id", "stop_sequence"],
      [[("trip_id", .str "T1"), ("stop_id", .str "S1"),
        ("stop_sequence", .num 1)]]⟩,
    calendar := none,
    shapes := none }

/-- `cleanFeed` except that the single route row appears twice, i.e.
`route_id = "R1"` is duplicated in `routes` — the C6 scenario feed.  Every
other aspect is defect-free. -/
def dupRouteFeed : Feed :=
  { cleanFeed with
    routes := some ⟨["route_id", "route_type", "route_short_name",
        "route_long_name"],
      [[("route_id", .str "R1"), ("route_type", .num 3),
        ("route_short_name", .str "10"),
        ("route_long_name", .str "Main Line")],
       [("route_id", .str "R1"), ("route_type", .num 3),
        ("route_short_name", .str "10"),
        ("route_long_name", .str "Main Line")]]⟩ }

def cleanProcessor : Processor := ⟨cleanFeed, true, some "feed.zip"⟩

def dupRouteProcessor : Processor := ⟨dupRouteFeed, true, some "feed.zip"⟩

/-- A fixed current day for the concrete scenarios (its value is
irrelevant: both fixture feeds lack a calendar table). -/
def nowFix : Int := 20000

/-! ### Per-rule contribution views of the loop, and small engine helpers -/

namespace GTFSValidator

/-- What one rule contributes to the `errors` list: the synthetic issue if
its check raised, its enriched issues if it is an error-severity rule,
nothing otherwise. -/
def ruleErrorsContrib (feed : Feed) (r : ValidationRule) : List Issue :=
  match r.validate_func feed with
  | .error e => [⟨r.name, "Validation rule failed: " ++ e, [], "error"⟩]
  | .ok is => if r.severity == "error" then is.map (enrich r) else []

/-- What one rule contributes to the `warnings` list. -/
def ruleWarningsContrib (feed : Feed) (r : ValidationRule) : List Issue :=
  match r.validate_func feed with
  | .error _ => []
  | .ok is =>
    if r.severity == "error" then []
    else if r.severity == "warning" then is.map (enrich r) else []

/-- What one rule contributes to the `notices` list. -/
def ruleNoticesContrib (feed : Feed) (r : ValidationRule) : List Issue :=
  match r.validate_func feed with
  | .error _ => []
  | .ok is =>
    if r.severity == "error" then []
    else if r.severity == "warning" then [] else is.map (enrich r)


/-- `str(feed_path) if feed_path else None`. -/
def pathOf (p : Processor) : Option String :=
  match p.feed_path with
  | some s => if s == "" then none else some s
  | none => none

/-- The processor `validate` actually checks and uses: the argument when one
is passed (`if processor: self.processor = processor`), else the stored
one. -/
def effProcessor (v : GTFSValidator) (processor : Option Processor) :
    Option Processor :=
  match processor with
  | some p => some p
  | none => v.processor


end GTFSValidator

/-! ### Named fixture validators and their concrete reports -/

def cleanValidator : GTFSValidator :=
  GTFSValidator.init nowFix (some cleanProcessor)

def dupRouteValidator : GTFSValidator :=
  GTFSValidator.init nowFix (some dupRouteProcessor)

def noProcValidator : GTFSValidator := GTFSValidator.init nowFix none

/-- The report both fixture feeds produce: no issues, perfect score. -/
def cleanReport : ValidationReport :=
  ⟨"valid", 100, [], [], [], some "feed.zip"⟩


/-! Fixtures for the remaining claims -/

def boomRule1 : ValidationRule :=
  ⟨"boom_one", "First always-failing rule", fun _ => .error "boom one",
    "error", none⟩

def boomRule2 : ValidationRule :=
  ⟨"boom_two", "Second always-failing rule", fun _ => .error "boom two",
    "info", none⟩

/-- An engine whose every rule throws. -/
def throwingValidator : GTFSValidator :=
  ⟨some cleanProcessor, [boomRule1, boomRule2]⟩

def bareIssueRule : ValidationRule :=
  ⟨"bare_rule", "Bare rule description", fun _ => .ok [⟨none, none⟩],
    "info", none⟩

def lonOnlyStops : Table :=
  ⟨["stop_id", "stop_lon"],
    [[("stop_id", Value.str "S1"), ("stop_lon", Value.num 999)]]⟩

def lonOnlyFeed : Feed := { cleanFeed with stops := some lonOnlyStops }


/-- The names of the validator's default rules, in order. -/
def defaultRuleNames : List String :=
  ["required_files", "required_fields", "data_types", "foreign_keys",
   "coordinate_validity", "service_dates", "stop_times_sequence",
   "route_names"]

def infoRule : ValidationRule :=
  ⟨"extra_info", "Extra informational check",
    fun _ => .ok [⟨some "heads up", some []⟩], "info", none⟩


/-- The non-null `(trip_id, stop_sequence)` key pairs of a stop-times
table (the rows `groupby` actually groups). -/
def stPairs (t : Table) : List (Value × Value) :=
  (List.zip (t.rows.map (·.cell "trip_id"))
    (t.rows.map (·.cell "stop_sequence"))).filter
    (fun p => !p.1.isNull && !p.2.isNull)

def seqTestTable : Table :=
  ⟨["trip_id", "stop_sequence"],
    [[("trip_id", Value.str "T1"), ("stop_sequence", Value.num 1)],
     [("trip_id", Value.str "T1"), ("stop_sequence", Value.num 1)],
     [("trip_id", Value.str "T2"), ("stop_sequence", Value.num 1)],
     [("trip_id", Value.str "T2"), ("stop_sequence", Value.num 2)]]⟩

def seqTestFeed : Feed := { cleanFeed with stop_times := some seqTestTable }


/-! ### Characterization of the rule loop -/

namespace GTFSValidator

theorem foldRoute_eq (r : ValidationRule) (is : List RawIssue)
    (acc : IssueLists) :
    is.foldl (fun a i => routeIssue r a (enrich r i)) acc =
      ⟨acc.errors ++ (if r.severity == "error" then is.map (enrich r) else []),
       acc.warnings ++ (if r.severity == "error" then []
         else if r.severity == "warning" then is.map (enrich r) else []),
       acc.notices ++ (if r.severity == "error" then []
         else if r.severity == "warning" then [] else is.map (enrich r))⟩ := by
  induction is generalizing acc with
  | nil => simp
  | cons i rest ih =>
    simp only [List.foldl_cons, List.map_cons]
    rw [ih]
    unfold routeIssue
    by_cases h1 : r.severity == "error" <;>
      by_cases h2 : r.severity == "warning" <;>
        simp [h1, h2, List.append_assoc]

theorem runRule_eq (feed : Feed) (acc : IssueLists) (r : ValidationRule) :
    runRule feed acc r =
      ⟨acc.errors ++ ruleErrorsContrib feed r,
       acc.warnings ++ ruleWarningsContrib feed r,
       acc.notices ++ ruleNoticesContrib feed r⟩ := by
  unfold runRule ruleErrorsContrib ruleWarningsContrib ruleNoticesContrib
  cases h : r.validate_func feed with
  | error e => simp
  | ok is => simp only [foldRoute_eq]

theorem foldRules_eq (feed : Feed) (rules : List ValidationRule)
    (acc : IssueLists) :
    rules.foldl (runRule feed) acc =
      ⟨acc.errors ++ (rules.map (ruleErrorsContrib feed)).flatten,
       acc.warnings ++ (rules.map (ruleWarningsContrib feed)).flatten,
       acc.notices ++ (rules.map (ruleNoticesContrib feed)).flatten⟩ := by
  induction rules generalizing acc with
  | nil => simp
  | cons r rest ih =>
    simp only [List.foldl_cons, List.map_cons, List.flatten_cons]
    rw [runRule_eq, ih]
    simp [List.append_assoc]

/-- The whole loop, rule by rule: each of the three report lists is the
concatenation, in registry order, of the per-rule contributions. -/
theorem runRules_eq (feed : Feed) (rules : List ValidationRule) :
    runRules feed rules =
      ⟨(rules.map (ruleErrorsContrib feed)).flatten,
       (rules.map (ruleWarningsContrib feed)).flatten,
       (rules.map (ruleNoticesContrib feed)).flatten⟩ := by
  unfold runRules
  rw [foldRules_eq]
  simp

/-- `validate`, rephrased through `effProcessor` (pure unfolding). -/
theorem validate_eq (v : GTFSValidator) (p? : Option Processor) :
    v.validate p? =
      match effProcessor v p? with
      | none => .error "No loaded GTFS processor provided"
      | some p =>
        if !p.is_loaded then .error "No loaded GTFS processor provided"
        else
          .ok ⟨statusOf (runRules p.feed v.validation_rules).errors
                (runRules p.feed v.validation_rules).warnings,
              computeScore (runRules p.feed v.validation_rules).errors.length
                (runRules p.feed v.validation_rules).warnings.length
                (runRules p.feed v.validation_rules).notices.length
                v.validation_rules.length,
              (runRules p.feed v.validation_rules).errors,
              (runRules p.feed v.validation_rules).warnings,
              (runRules p.feed v.validation_rules).notices,
              pathOf p⟩ := by
  cases p? <;> rfl

/-- Inversion: a successful `validate` call went through the loaded branch,
and the report is exactly the one assembled there. -/
theorem validate_ok_inv (v : GTFSValidator) (p? : Option Processor)
    (rep : ValidationReport) (h : v.validate p? = .ok rep) :
    ∃ p, effProcessor v p? = some p ∧ p.is_loaded = true ∧
      rep = ⟨statusOf (runRules p.feed v.validation_rules).errors
              (runRules p.feed v.validation_rules).warnings,
            computeScore (runRules p.feed v.validation_rules).errors.length
              (runRules p.feed v.validation_rules).warnings.length
              (runRules p.feed v.validation_rules).notices.length
              v.validation_rules.length,
            (runRules p.feed v.validation_rules).errors,
            (runRules p.feed v.validation_rules).warnings,
            (runRules p.feed v.validation_rules).notices,
            pathOf p⟩ := by
  rw [validate_eq] at h
  cases hp : effProcessor v p? with
  | none => rw [hp] at h; cases h
  | some p =>
    rw [hp] at h
    dsimp only at h
    by_cases hl : p.is_loaded
    · refine ⟨p, rfl, hl, ?_⟩
      rw [hl] at h
      simp only [Bool.not_true, Bool.false_eq_true, if_false] at h
      cases h
      rfl
    · rw [Bool.not_eq_true] at hl
      rw [hl] at h
      simp only [Bool.not_false, if_true] at h
      cases h

/-- The three status strings and their defining conditions. -/
theorem statusOf_spec (E W : List Issue) :
    (statusOf E W = "invalid" ↔ E ≠ []) ∧
    (statusOf E W = "valid_with_warnings" ↔ E = [] ∧ W ≠ []) ∧
    (statusOf E W = "valid" ↔ E = [] ∧ W = []) ∧
    (statusOf E W = "invalid" ∨ statusOf E W = "valid_with_warnings"
      ∨ statusOf E W = "valid") := by
  unfold statusOf
  rcases E with _ | ⟨e, E⟩ <;> rcases W with _ | ⟨w, W⟩ <;> simp

/-- The score the code computes is the score the spec prescribes. -/
theorem computeScore_eq_specScore (nE nW nN nR : Nat) :
    computeScore nE nW nN nR = specScore nE nW nN nR := by
  unfold computeScore specScore
  by_cases hR : 0 < nR
  · have hcast : (0 : Rat) < (nR : Rat) * 10 := by
      have : (0 : Rat) < (nR : Rat) := by exact_mod_cast hR
      linarith
    rw [if_pos hcast, if_pos hR]
    congr 1
    have h10 : ((10 * nR : Nat) : Rat) ≠ 0 := by positivity
    field_simp
    ring
  · have hz : nR = 0 := Nat.eq_zero_of_not_pos hR
    subst hz
    norm_num

/-- The computed score is clamped into `[0, 100]`. -/
theorem computeScore_bounds (nE nW nN nR : Nat) :
    0 ≤ computeScore nE nW nN nR ∧ computeScore nE nW nN nR ≤ 100 := by
  unfold computeScore
  dsimp only
  split
  · constructor
    · exact le_max_left 0 _
    · apply max_le (by norm_num)
      have h1 : (0 : Rat) ≤ (nE : Rat) * 10 + (nW : Rat) * 3 + (nN : Rat) * 1 := by
        positivity
      have h2 : (0 : Rat) ≤ (nR : Rat) * 10 := by positivity
      have h3 : (0 : Rat) ≤
          ((nE : Rat) * 10 + (nW : Rat) * 3 + (nN : Rat) * 1)
            / ((nR : Rat) * 10) * 100 := by positivity
      linarith
  · norm_num

/-- A rule set with no issues scores a perfect 100. -/
theorem computeScore_no_issues (nR : Nat) : computeScore 0 0 0 nR = 100 := by
  unfold computeScore
  dsimp only
  split <;> norm_num

/-- Unfolding `validate` when a loaded processor is stored and no override
is passed. -/
theorem validate_loaded (v : GTFSValidator) (p : Processor)
    (hp : v.processor = some p) (hl : p.is_loaded = true) :
    v.validate none =
      .ok ⟨statusOf (runRules p.feed v.validation_rules).errors
            (runRules p.feed v.validation_rules).warnings,
          computeScore (runRules p.feed v.validation_rules).errors.length
            (runRules p.feed v.validation_rules).warnings.length
            (runRules p.feed v.validation_rules).notices.length
            v.validation_rules.length,
          (runRules p.feed v.validation_rules).errors,
          (runRules p.feed v.validation_rules).warnings,
          (runRules p.feed v.validation_rules).notices,
          pathOf p⟩ := by
  simp [validate, hp, hl, pathOf]

end GTFSValidator

theorem clean_runRules : GTFSValidator.runRules cleanProcessor.feed
    cleanValidator.validation_rules = ⟨[], [], []⟩ := by decide

theorem dup_runRules : GTFSValidator.runRules dupRouteProcessor.feed
    dupRouteValidator.validation_rules = ⟨[], [], []⟩ := by decide

theorem clean_validate_eq : cleanValidator.validate none = .ok cleanReport := by
  have h := GTFSValidator.validate_loaded cleanValidator cleanProcessor rfl rfl
  rw [clean_runRules] at h
  dsimp only [List.length_nil] at h
  rw [GTFSValidator.computeScore_no_issues] at h
  rw [h]
  decide

theorem dup_validate_eq : dupRouteValidator.validate none = .ok cleanReport := by
  have h := GTFSValidator.validate_loaded dupRouteValidator dupRouteProcessor
    rfl rfl
  rw [dup_runRules] at h
  dsimp only [List.length_nil] at h
  rw [GTFSValidator.computeScore_no_issues] at h
  rw [h]
  decide

/-! ### Claim theorems -/

/-- C1: every report `validate()` returns satisfies: status is "invalid"
iff `errors` is non-empty; "valid_with_warnings" iff `errors` is empty and
`warnings` non-empty; "valid" iff both are empty (notices never enter the
derivation); and the three statuses are exhaustive — hence, their defining
conditions being incompatible, mutually exclusive. -/
theorem claim1_status_derivation (v : GTFSValidator) (p? : Option Processor)
    (rep : ValidationReport) (h : v.validate p? = .ok rep) :
    (rep.status = "invalid" ↔ rep.errors ≠ []) ∧
    (rep.status = "valid_with_warnings" ↔
      rep.errors = [] ∧ rep.warnings ≠ []) ∧
    (rep.status = "valid" ↔ rep.errors = [] ∧ rep.warnings = []) ∧
    (rep.status = "invalid" ∨ rep.status = "valid_with_warnings"
      ∨ rep.status = "valid") := by
  obtain ⟨p, -, -, hrep⟩ := GTFSValidator.validate_ok_inv v p? rep h
  subst hrep
  exact GTFSValidator.statusOf_spec _ _

theorem claim1_witness :
    (cleanReport.status = "invalid" ↔ cleanReport.errors ≠ []) ∧
    (cleanReport.status = "valid_with_warnings" ↔
      cleanReport.errors = [] ∧ cleanReport.warnings ≠ []) ∧
    (cleanReport.status = "valid" ↔
      cleanReport.errors = [] ∧ cleanReport.warnings = []) ∧
    (cleanReport.status = "invalid" ∨
      cleanReport.status = "valid_with_warnings" ∨
      cleanReport.status = "valid") :=
  claim1_status_derivation cleanValidator none cleanReport clean_validate_eq

/-- C2: the score of every report equals the spec formula
`max(0, 100 - 100*(10E + 3W + N)/(10R))` (or `100` when `R = 0`) in the
report's own issue counts and the engine's active rule count, and always
lies in `[0, 100]`. -/
theorem claim2_score_formula (v : GTFSValidator) (p? : Option Processor)
    (rep : ValidationReport) (h : v.validate p? = .ok rep) :
    rep.score = specScore rep.errors.length rep.warnings.length
      rep.notices.length v.validation_rules.length ∧
    0 ≤ rep.score ∧ rep.score ≤ 100 := by
  obtain ⟨p, -, -, hrep⟩ := GTFSValidator.validate_ok_inv v p? rep h
  subst hrep
  exact ⟨GTFSValidator.computeScore_eq_specScore _ _ _ _,
    (GTFSValidator.computeScore_bounds _ _ _ _).1,
    (GTFSValidator.computeScore_bounds _ _ _ _).2⟩

theorem claim2_witness :
    cleanReport.score = specScore cleanReport.errors.length
      cleanReport.warnings.length cleanReport.notices.length
      cleanValidator.validation_rules.length ∧
    0 ≤ cleanReport.score ∧ cleanReport.score ≤ 100 :=
  claim2_score_formula cleanValidator none cleanReport clean_validate_eq

/-- C4: `validate()` fails (with the `GTFSValidationError`) exactly when
the effective processor is missing or not loaded; and in that case the
outcome is independent of the rule list — no rule runs, no issue is
collected, the same error results whatever the rules are.  In every other
case `validate()` returns a report. -/
theorem claim4_raise_condition (v : GTFSValidator) (p? : Option Processor) :
    ((∃ e, v.validate p? = .error e) ↔
      (GTFSValidator.effProcessor v p? = none ∨
        ∃ p, GTFSValidator.effProcessor v p? = some p ∧
          p.is_loaded = false)) ∧
    ((GTFSValidator.effProcessor v p? = none ∨
        ∃ p, GTFSValidator.effProcessor v p? = some p ∧
          p.is_loaded = false) →
      ∀ rules : List ValidationRule,
        ({ v with validation_rules := rules } : GTFSValidator).validate p? =
          v.validate p?) := by
  constructor
  · constructor
    · rintro ⟨e, he⟩
      rw [GTFSValidator.validate_eq] at he
      cases hp : GTFSValidator.effProcessor v p? with
      | none => exact Or.inl rfl
      | some p =>
        rw [hp] at he
        dsimp only at he
        cases hl : p.is_loaded with
        | true => rw [hl] at he; simp at he
        | false => exact Or.inr ⟨p, rfl, hl⟩
    · rintro (hnone | ⟨p, hp, hl⟩)
      · rw [GTFSValidator.validate_eq, hnone]
        exact ⟨_, rfl⟩
      · refine ⟨"No loaded GTFS processor provided", ?_⟩
        rw [GTFSValidator.validate_eq, hp]
        dsimp only
        rw [hl]
        rfl
  · intro hcond rules
    have he : GTFSValidator.effProcessor
        { v with validation_rules := rules } p? =
        GTFSValidator.effProcessor v p? := by
      cases p? <;> rfl
    rw [GTFSValidator.validate_eq, GTFSValidator.validate_eq, he]
    rcases hcond with hnone | ⟨p, hp, hl⟩
    · rw [hnone]
    · rw [hp]
      dsimp only
      rw [hl]
      rfl

theorem claim4_witness :
    (∃ e, noProcValidator.validate none = .error e) ∧
    ({ noProcValidator with validation_rules := [] } :
        GTFSValidator).validate none = noProcValidator.validate none := by
  have h := claim4_raise_condition noProcValidator none
  exact ⟨h.1.mpr (Or.inl rfl), h.2 (Or.inl rfl) []⟩

/-- C3: with a loaded feed, `validate()` always returns a report — built
from the concatenated per-rule contributions of every rule in order, so
later rules run whatever earlier ones do — and a rule whose check raises
contributes exactly the one synthetic error issue
`{rule, "Validation rule failed: <cause>", {}, "error"}` to `errors` and
nothing elsewhere. -/
theorem claim3_rule_failure_recovery (v : GTFSValidator) (p : Processor)
    (r : ValidationRule) (e : String)
    (hp : v.processor = some p) (hl : p.is_loaded = true)
    (he : r.validate_func p.feed = .error e) :
    v.validate none = .ok
      ⟨GTFSValidator.statusOf
          ((v.validation_rules.map
            (GTFSValidator.ruleErrorsContrib p.feed)).flatten)
          ((v.validation_rules.map
            (GTFSValidator.ruleWarningsContrib p.feed)).flatten),
        GTFSValidator.computeScore
          ((v.validation_rules.map
            (GTFSValidator.ruleErrorsContrib p.feed)).flatten).length
          ((v.validation_rules.map
            (GTFSValidator.ruleWarningsContrib p.feed)).flatten).length
          ((v.validation_rules.map
            (GTFSValidator.ruleNoticesContrib p.feed)).flatten).length
          v.validation_rules.length,
        (v.validation_rules.map
          (GTFSValidator.ruleErrorsContrib p.feed)).flatten,
        (v.validation_rules.map
          (GTFSValidator.ruleWarningsContrib p.feed)).flatten,
        (v.validation_rules.map
          (GTFSValidator.ruleNoticesContrib p.feed)).flatten,
        GTFSValidator.pathOf p⟩ ∧
    GTFSValidator.ruleErrorsContrib p.feed r =
      [⟨r.name, "Validation rule failed: " ++ e, [], "error"⟩] ∧
    GTFSValidator.ruleWarningsContrib p.feed r = [] ∧
    GTFSValidator.ruleNoticesContrib p.feed r = [] := by
  refine ⟨?_, ?_, ?_, ?_⟩
  · rw [GTFSValidator.validate_loaded v p hp hl, GTFSValidator.runRules_eq]
  · unfold GTFSValidator.ruleErrorsContrib
    rw [he]
  · unfold GTFSValidator.ruleWarningsContrib
    rw [he]
  · unfold GTFSValidator.ruleNoticesContrib
    rw [he]

theorem claim3_witness :
    throwingValidator.validate none = .ok
      ⟨GTFSValidator.statusOf
          ((throwingValidator.validation_rules.map
            (GTFSValidator.ruleErrorsContrib cleanProcessor.feed)).flatten)
          ((throwingValidator.validation_rules.map
            (GTFSValidator.ruleWarningsContrib cleanProcessor.feed)).flatten),
        GTFSValidator.computeScore
          ((throwingValidator.validation_rules.map
            (GTFSValidator.ruleErrorsContrib cleanProcessor.feed)).flatten).length
          ((throwingValidator.validation_rules.map
            (GTFSValidator.ruleWarningsContrib cleanProcessor.feed)).flatten).length
          ((throwingValidator.validation_rules.map
            (GTFSValidator.ruleNoticesContrib cleanProcessor.feed)).flatten).length
          throwingValidator.validation_rules.length,
        (throwingValidator.validation_rules.map
          (GTFSValidator.ruleErrorsContrib cleanProcessor.feed)).flatten,
        (throwingValidator.validation_rules.map
          (GTFSValidator.ruleWarningsContrib cleanProcessor.feed)).flatten,
        (throwingValidator.validation_rules.map
          (GTFSValidator.ruleNoticesContrib cleanProcessor.feed)).flatten,
        GTFSValidator.pathOf cleanProcessor⟩ ∧
    GTFSValidator.ruleErrorsContrib cleanProcessor.feed boomRule1 =
      [⟨boomRule1.name, "Validation rule failed: " ++ "boom one", [],
        "error"⟩] ∧
    GTFSValidator.ruleWarningsContrib cleanProcessor.feed boomRule1 = [] ∧
    GTFSValidator.ruleNoticesContrib cleanProcessor.feed boomRule1 = [] :=
  claim3_rule_failure_recovery throwingValidator cleanProcessor boomRule1
    "boom one" rfl rfl rfl

/-- C9: for a rule whose check returns raw issues, each report entry takes
`message` from the issue when present, else the rule's description;
`details` when present, else the empty mapping; carries the rule's
severity; and the whole batch lands in errors/warnings/notices according
to that severity. -/
theorem claim9_issue_enrichment (r : ValidationRule) (feed : Feed)
    (is : List RawIssue) (h : r.validate_func feed = .ok is) :
    GTFSValidator.runRules feed [r] =
      (if r.severity = "error" then
        ⟨is.map (fun i => ⟨r.name, i.message.getD r.description,
          i.details.getD [], r.severity⟩), [], []⟩
      else if r.severity = "warning" then
        ⟨[], is.map (fun i => ⟨r.name, i.message.getD r.description,
          i.details.getD [], r.severity⟩), []⟩
      else ⟨[], [], is.map (fun i => ⟨r.name, i.message.getD r.description,
        i.details.getD [], r.severity⟩)⟩) := by
  rw [GTFSValidator.runRules_eq]
  simp only [List.map_cons, List.map_nil, List.flatten_cons,
    List.flatten_nil, List.append_nil]
  unfold GTFSValidator.ruleErrorsContrib GTFSValidator.ruleWarningsContrib
    GTFSValidator.ruleNoticesContrib
  rw [h]
  by_cases h1 : r.severity = "error"
  · simp [h1, GTFSValidator.enrich]
  · by_cases h2 : r.severity = "warning"
    · simp [h1, h2, GTFSValidator.enrich]
    · simp [h1, h2, GTFSValidator.enrich]

theorem claim9_witness :
    GTFSValidator.runRules cleanFeed [bareIssueRule] =
      ⟨[], [], [⟨"bare_rule", "Bare rule description", [], "info"⟩]⟩ := by
  rw [claim9_issue_enrichment bareIssueRule cleanFeed [⟨none, none⟩] rfl]
  decide

/-- C8: `get_issues_by_severity` returns the errors list for "error", the
warnings list for "warning", the notices list for "info", and the empty
list for any other string — never raising (it is total) and, being pure,
never mutating the report. -/
theorem claim8_issues_by_severity (rep : ValidationReport) (s : String) :
    (s = "error" → rep.get_issues_by_severity s = rep.errors) ∧
    (s = "warning" → rep.get_issues_by_severity s = rep.warnings) ∧
    (s = "info" → rep.get_issues_by_severity s = rep.notices) ∧
    (s ≠ "error" → s ≠ "warning" → s ≠ "info" →
      rep.get_issues_by_severity s = []) := by
  unfold ValidationReport.get_issues_by_severity
  refine ⟨?_, ?_, ?_, ?_⟩
  · intro h; subst h; simp
  · intro h; subst h; simp
  · intro h; subst h; simp
  · intro h1 h2 h3
    simp [beq_iff_eq, h1, h2, h3]

theorem claim8_witness :
    cleanReport.get_issues_by_severity "bogus" = [] :=
  (claim8_issues_by_severity cleanReport "bogus").2.2.2 (by decide)
    (by decide) (by decide)

/-- C10: when the stops table is present but lacks `stop_lat` or
`stop_lon`, the coordinate-validity check (both the registry rule and the
validator's built-in copy) returns no issues at all, whatever values the
present column holds. -/
theorem claim10_coordinates_need_both_columns (f : Feed) (t : Table)
    (hs : f.stops = some t)
    (h : "stop_lat" ∉ t.columns ∨ "stop_lon" ∉ t.columns) :
    StandardRules.coordinate_validity_rule.validate_func f = .ok [] ∧
    GTFSValidator.validate_coordinates f = .ok [] := by
  have hv : GTFSValidator.validate_coordinates f = .ok [] := by
    have hcond : ¬("stop_lat" ∈ t.columns ∧ "stop_lon" ∈ t.columns) :=
      fun hc => h.elim (fun h1 => h1 hc.1) (fun h2 => h2 hc.2)
    unfold GTFSValidator.validate_coordinates
    rw [hs]
    dsimp only
    rw [if_neg hcond]
    rfl
  exact ⟨hv, hv⟩

theorem claim10_witness :
    ((999 : Rat) > 180) ∧
    (StandardRules.coordinate_validity_rule.validate_func lonOnlyFeed =
        .ok [] ∧
      GTFSValidator.validate_coordinates lonOnlyFeed = .ok []) :=
  ⟨by norm_num,
    claim10_coordinates_need_both_columns lonOnlyFeed lonOnlyStops rfl
      (by decide)⟩

/-! ### C6 and C7 -/

theorem runRules_append_single (feed : Feed) (rules : List ValidationRule)
    (r : ValidationRule) :
    GTFSValidator.runRules feed (rules ++ [r]) =
      GTFSValidator.runRule feed (GTFSValidator.runRules feed rules) r := by
  unfold GTFSValidator.runRules
  rw [List.foldl_append]
  rfl

/-- One info-severity issue against `n + 1` active rules costs exactly
`100/(10*(n+1))` score points. -/
theorem computeScore_one_notice (n : Nat) :
    GTFSValidator.computeScore 0 0 1 (n + 1) =
      100 - 100 / (10 * ((n : Rat) + 1)) := by
  unfold GTFSValidator.computeScore
  dsimp only
  have hpos : (0 : Rat) < ((n + 1 : Nat) : Rat) * 10 := by positivity
  rw [if_pos hpos]
  have hn : (0 : Rat) ≤ (n : Rat) := Nat.cast_nonneg n
  have hne : ((n + 1 : Nat) : Rat) * 10 ≠ 0 := by positivity
  have harg : (100 : Rat) -
      ((0 : Rat) * 10 + (0 : Rat) * 3 + (1 : Rat) * 1)
        / (((n + 1 : Nat) : Rat) * 10) * 100 =
      100 - 100 / (10 * ((n : Rat) + 1)) := by
    push_cast
    field_simp
    ring
  push_cast at harg ⊢
  rw [harg]
  rw [max_eq_right]
  have h1 : (10 : Rat) ≤ 10 * ((n : Rat) + 1) := by linarith
  have h2 : (100 : Rat) / (10 * ((n : Rat) + 1)) ≤ 100 / 10 := by
    gcongr
  have h3 : (100 : Rat) / 10 = 10 := by norm_num
  linarith

/-- C6 counterexample: a feed whose routes table holds `route_id = "R1"`
twice and is otherwise defect-free; `validate()` with the default rule set
returns a report with no errors at all and status "valid", not "invalid"
with a `duplicate_ids` error — the default set contains no
`duplicate_ids` rule. -/
theorem claim6_counterexample :
    dupRouteValidator.validate none =
      .ok ⟨"valid", 100, [], [], [], some "feed.zip"⟩ ∧
    ("valid" : String) ≠ "invalid" :=
  ⟨dup_validate_eq, by decide⟩

/-- C6 amended: the `duplicate_ids` rule of the standard registry, run by
itself on that feed, does emit exactly one error-severity issue with
`details.count == 1`; but `GTFSValidator`'s default rule set (whatever the
current time) consists of the eight built-ins and does not include
`duplicate_ids`, so `validate()` with the default set reports no error and
the report status is "valid". -/
theorem claim6_amended :
    StandardRules.duplicate_ids_rule.validate_func dupRouteFeed =
      .ok [⟨some "Duplicate route IDs found: 1",
        some [("count", DetailVal.nat 1)]⟩] ∧
    StandardRules.duplicate_ids_rule.severity = "error" ∧
    (∀ now : Int, (GTFSValidator.setup_default_rules now).map
      (fun r => r.name) = defaultRuleNames) ∧
    "duplicate_ids" ∉ defaultRuleNames ∧
    dupRouteValidator.validate none =
      .ok ⟨"valid", 100, [], [], [], some "feed.zip"⟩ :=
  ⟨by decide, rfl, fun _ => rfl, by decide, dup_validate_eq⟩

/-- C7: `add_custom_rule` appends the rule to this engine instance's
active set (the standard registry, a pure function, is untouched); and on
a feed where the existing rules produce no issues, a custom info-severity
rule returning one issue places exactly that issue (enriched) in
`notices`, leaves errors and warnings empty, keeps the status "valid", and
lowers the perfect 100 score by `100/(10*N)` where `N` is the new active
rule count. -/
theorem claim7_custom_info_rule (v : GTFSValidator) (p : Processor)
    (r : ValidationRule) (iss : RawIssue)
    (hp : v.processor = some p) (hl : p.is_loaded = true)
    (hclean : GTFSValidator.runRules p.feed v.validation_rules = ⟨[], [], []⟩)
    (hsev : r.severity = "info")
    (hr : r.validate_func p.feed = .ok [iss]) :
    (v.add_custom_rule r).validation_rules = v.validation_rules ++ [r] ∧
    v.validate none =
      .ok ⟨"valid", 100, [], [], [], GTFSValidator.pathOf p⟩ ∧
    (v.add_custom_rule r).validate none = .ok
      ⟨"valid",
       100 - 100 / (10 * ((v.validation_rules.length : Rat) + 1)),
       [], [],
       [⟨r.name, iss.message.getD r.description, iss.details.getD [],
         "info"⟩],
       GTFSValidator.pathOf p⟩ := by
  refine ⟨rfl, ?_, ?_⟩
  · have h := GTFSValidator.validate_loaded v p hp hl
    rw [hclean] at h
    dsimp only [List.length_nil] at h
    rw [GTFSValidator.computeScore_no_issues] at h
    rw [h]
    rfl
  · have hrun : GTFSValidator.runRules p.feed (v.validation_rules ++ [r]) =
        ⟨[], [], [GTFSValidator.enrich r iss]⟩ := by
      rw [runRules_append_single, hclean, GTFSValidator.runRule_eq]
      unfold GTFSValidator.ruleErrorsContrib GTFSValidator.ruleWarningsContrib
        GTFSValidator.ruleNoticesContrib
      rw [hr]
      simp [hsev]
    have h := GTFSValidator.validate_loaded (v.add_custom_rule r) p hp hl
    have hvr : (v.add_custom_rule r).validation_rules =
        v.validation_rules ++ [r] := rfl
    rw [hvr, hrun] at h
    dsimp only [List.length_nil, List.length_cons] at h
    rw [List.length_append] at h
    simp only [List.length_singleton] at h
    rw [computeScore_one_notice] at h
    rw [h]
    simp [GTFSValidator.enrich, GTFSValidator.statusOf, hsev]

theorem claim7_witness :
    (cleanValidator.add_custom_rule infoRule).validation_rules =
      cleanValidator.validation_rules ++ [infoRule] ∧
    cleanValidator.validate none =
      .ok ⟨"valid", 100, [], [], [], GTFSValidator.pathOf cleanProcessor⟩ ∧
    (cleanValidator.add_custom_rule infoRule).validate none = .ok
      ⟨"valid",
       100 - 100 /
         (10 * ((cleanValidator.validation_rules.length : Rat) + 1)),
       [], [],
       [⟨"extra_info", "heads up", [], "info"⟩],
       GTFSValidator.pathOf cleanProcessor⟩ :=
  claim7_custom_info_rule cleanValidator cleanProcessor infoRule
    ⟨some "heads up", some []⟩ rfl rfl clean_runRules rfl rfl

/-! ### C5 -/

theorem colE_ok (t : Table) (c : String) (h : c ∈ t.columns) :
    t.colE c = .ok (t.rows.map (·.cell c)) := by
  unfold Table.colE
  rw [if_pos h]

theorem sortValues_isOk_of_isNum (vs : List Value)
    (h : ∀ v ∈ vs, v.isNum = true) :
    ∃ s, sortValues vs = .ok s := by
  unfold sortValues
  rw [if_pos (List.all_eq_true.mpr
    (fun v hv => h v (List.mem_of_mem_filter hv)))]
  exact ⟨_, rfl⟩

/-- The loop-with-break scans for the first violating trip and reports
just it: it computes what `List.find?` computes. -/
theorem seqScan_eq_find (t : Table) (l : List Value)
    (h : ∀ tid ∈ l, ∃ s,
      sortValues (StandardRules.tripSeqVals t tid) = .ok s) :
    StandardRules.seqScan t l = .ok
      (match l.find? (seqViolB t) with
       | some tid => [⟨some ("Non-sequential stop sequences in trip "
           ++ tid.pyStr), some [("trip_id", .val tid)]⟩]
       | none => []) := by
  induction l with
  | nil => rfl
  | cons tid rest ih =>
    obtain ⟨s, hs⟩ := h tid (List.mem_cons_self tid rest)
    have hrest := fun x hx => h x (List.mem_cons_of_mem tid hx)
    have hviol : seqViolB t tid = !(s == denseRun s.length) := by
      unfold seqViolB
      rw [hs]
    unfold StandardRules.seqScan
    rw [hs]
    dsimp only
    cases hb : s == denseRun s.length with
    | true =>
      rw [if_pos rfl, ih hrest]
      have hfind : (tid :: rest).find? (seqViolB t) = rest.find? (seqViolB t) := by
        apply List.find?_cons_of_neg
        simp [hviol, hb]
      rw [hfind]
    | false =>
      rw [if_neg (by simp)]
      have hfind : (tid :: rest).find? (seqViolB t) = some tid := by
        apply List.find?_cons_of_pos
        simp [hviol, hb]
      rw [hfind]

/-- C5: when `stop_times` is present (with its key columns, and numeric
`stop_sequence` values so that sorting is defined), the
`stop_times_sequence` rule — a warning-severity rule — returns: one issue
carrying the count of duplicate `(trip_id, stop_sequence)` groups when
that count is positive, followed by at most one dense-run issue naming
the FIRST trip, among the first 100 distinct trip ids in encounter order,
whose sorted stop_sequence values differ from `1..N` — and nothing for
the trips after it (the scan stops). -/
theorem claim5_stop_times_sequence (f : Feed) (t : Table)
    (hst : f.stop_times = some t)
    (hTrip : "trip_id" ∈ t.columns) (hSeq : "stop_sequence" ∈ t.columns)
    (hnum : ∀ r ∈ t.rows, (Row.cell r "stop_sequence").isNum = true) :
    StandardRules.stop_times_sequence_rule.severity = "warning" ∧
    StandardRules.stop_times_sequence_rule.validate_func f = .ok
      ((if 0 < dupGroupCount (stPairs t) then
          [⟨some ("Duplicate stop sequences found in "
              ++ toString (dupGroupCount (stPairs t)) ++ " cases"),
            some [("count", .nat (dupGroupCount (stPairs t)))]⟩]
        else []) ++
       (match ((uniqueFirst (t.rows.map (·.cell "trip_id"))).take 100).find?
          (seqViolB t) with
        | some tid => [⟨some ("Non-sequential stop sequences in trip "
            ++ tid.pyStr), some [("trip_id", .val tid)]⟩]
        | none => [])) := by
  refine ⟨rfl, ?_⟩
  have hok : ∀ tid ∈ (uniqueFirst (t.rows.map (·.cell "trip_id"))).take 100,
      ∃ s, sortValues (StandardRules.tripSeqVals t tid) = .ok s := by
    intro tid _
    apply sortValues_isOk_of_isNum
    intro v hv
    obtain ⟨r, hr, hcell⟩ := List.mem_map.mp hv
    exact hcell ▸ hnum r (List.mem_of_mem_filter hr)
  show StandardRules.stop_times_sequence_check f = _
  unfold StandardRules.stop_times_sequence_check
  rw [hst]
  dsimp only
  rw [colE_ok t "trip_id" hTrip, colE_ok t "stop_sequence" hSeq]
  dsimp only
  rw [seqScan_eq_find t _ hok]
  rfl

theorem claim5_witness :
    StandardRules.stop_times_sequence_rule.validate_func seqTestFeed = .ok
      [⟨some "Duplicate stop sequences found in 1 cases",
        some [("count", DetailVal.nat 1)]⟩,
       ⟨some "Non-sequential stop sequences in trip T1",
        some [("trip_id", DetailVal.val (Value.str "T1"))]⟩] := by
  have h := (claim5_stop_times_sequence seqTestFeed seqTestTable rfl
    (by decide) (by decide) (by decide)).2
  rw [h]
  decide

end Databus




